import Mathlib

/-!
Verification of the buildkite agent core (process supervisor, line scanner,
artifact collector, upload coordinator) against its natural-language
specification.  The definitions below are a shallow embedding of the Go
sources in src/agent/artifact_uploader.go and src/clicommand/pipeline_upload.go
(the latter bundles the clicommand pipeline-upload and annotate actions and
the process package).
-/

namespace Buildkite

/-! ## Process supervisor: the straight-line epilogue of Process.Start

After `waitResult := p.command.Wait()` returns, Process.Start executes, in
program order: close the line-writer pipe, clear the running flag, close the
done channel, compute and store the exit status, and finally call
timeoutWait on the wait group (pipeline_upload.go process section, the lines
from lineWriterPipe.Close() through timeoutWait(&waitGroup)).  We embed that
straight-line suffix as the ordered list of its observable events.
-/

/-- The observable events of Process.Start after the command wait returns,
one constructor per statement in the source. -/
inductive PEvent where
  | closeLineWriter
  | setRunningFalse
  | closeDone
  | setExitStat
  | timeoutWaitCall
deriving DecidableEq, BEq, Repr

/-- The event sequence of Process.Start after p.command.Wait() returns, in
the order the statements appear in the source: lineWriterPipe.Close(),
p.setRunning(false), close(p.done), p.ExitStatus = getExitStatus(waitResult),
timeoutWait(&waitGroup). -/
def startAfterWait : List PEvent :=
  [PEvent.closeLineWriter, PEvent.setRunningFalse, PEvent.closeDone,
   PEvent.setExitStat, PEvent.timeoutWaitCall]

/-- The fixed ceiling, in seconds, of timeoutWait: the select arm
time.After(10 * time.Second). -/
def timeoutWaitCeilingSeconds : Nat := 10

/-- Model of timeoutWait: if the wait group finishes within the ceiling the
wait returns nil, otherwise it gives up and returns the Timeout error. -/
def timeoutWaitModel (finishSeconds : Nat) : Option String :=
  if finishSeconds ≤ timeoutWaitCeilingSeconds then none else some "Timeout"

/-! ## Process supervisor: exit status extraction (getExitStatus) -/

/-- The shape of the value returned by p.command.Wait(), as far as
getExitStatus inspects it: nil; an exec.ExitError whose Sys() is a
syscall.WaitStatus carrying an exit code; an exec.ExitError whose Sys() is
not a WaitStatus; or an error of any other type. -/
inductive WaitResult where
  | success
  | exited (sys : Option Int)
  | otherErr
deriving DecidableEq, Repr

/-- Embedding of getExitStatus: exitStatus starts at -1, is set to 0 when
waitResult is nil, to the WaitStatus exit code when waitResult is an
exec.ExitError with an extractable code, and is left at -1 on the two
logged fallback branches; the result is rendered with Sprintf %d. -/
def getExitStatus (w : WaitResult) : String :=
  let e0 : Int := -1
  let e1 : Int :=
    match w with
    | WaitResult.success => 0
    | WaitResult.exited (some n) => n
    | WaitResult.exited none => e0
    | WaitResult.otherErr => e0
  toString e1

/-! ## Process supervisor: Kill -/

/-- Embedding of Process.Kill.  The first signal delivery (SIGTERM on POSIX,
the taskkill utility on Windows) yields termErr; if it fails Kill returns
that error.  Otherwise Kill selects between the done channel and the grace
period timer: doneWithinGrace records which arm fires.  On timeout it sends
SIGKILL, whose delivery result is killErr; a failed delivery is returned,
and otherwise Kill returns nil. -/
def killModel (termErr : Option String) (doneWithinGrace : Bool)
    (killErr : Option String) : Option String :=
  match termErr with
  | some e => some e
  | none => if doneWithinGrace then none else killErr

/-! ## Claims C1, C6, C7 -/

/-- C1 (corrected): the claim asserts that close(p.done) happens exactly
once and only after the exit status is finalized and after the bounded
timeoutWait.  In the source, close(p.done) precedes both the exit-status
assignment and the timeoutWait call, so the conjunction of the two claimed
orderings is false. -/
theorem c1_counterexample :
    ¬ (startAfterWait.count PEvent.closeDone = 1
       ∧ startAfterWait.indexOf PEvent.setExitStat
           < startAfterWait.indexOf PEvent.closeDone
       ∧ startAfterWait.indexOf PEvent.timeoutWaitCall
           < startAfterWait.indexOf PEvent.closeDone) := by
  decide

/-- C1 (amended): after the supervised command exits, Process.Start closes
the done channel exactly once, after clearing the running flag but before
the exit status is finalized and before the bounded wait (fixed ceiling of
10 seconds) for outstanding output-copy and line-callback work. -/
theorem c1_amended :
    startAfterWait.count PEvent.closeDone = 1
    ∧ startAfterWait.indexOf PEvent.setRunningFalse
        < startAfterWait.indexOf PEvent.closeDone
    ∧ startAfterWait.indexOf PEvent.closeDone
        < startAfterWait.indexOf PEvent.setExitStat
    ∧ startAfterWait.indexOf PEvent.closeDone
        < startAfterWait.indexOf PEvent.timeoutWaitCall
    ∧ timeoutWaitCeilingSeconds = 10
    ∧ timeoutWaitModel 11 = some "Timeout" := by
  decide

/-- C6: Kill(gracePeriod) returns an error exactly when a signal delivery
itself fails: a returned error is either the graceful-signal delivery error
or, on the escalation path, the forceful-signal delivery error; when both
deliveries succeed Kill returns nil regardless of whether the grace period
elapsed. -/
theorem c6_kill_error_only_from_signal :
    ∀ (termErr killErr : Option String) (doneWithinGrace : Bool),
      (∀ e, killModel termErr doneWithinGrace killErr = some e →
        termErr = some e ∨ (doneWithinGrace = false ∧ killErr = some e))
      ∧ (termErr = none → killErr = none →
          killModel termErr doneWithinGrace killErr = none) := by
  intro termErr killErr doneWithinGrace
  constructor
  · intro e he
    cases termErr with
    | some t =>
        left
        simpa [killModel] using he
    | none =>
        right
        cases doneWithinGrace with
        | true => simp [killModel] at he
        | false => simpa [killModel] using he
  · intro ht hk
    cases doneWithinGrace <;> simp [killModel, ht, hk]

/-- C6 witness: at a concrete input where the grace period elapsed and the
SIGKILL delivery succeeded, Kill returns nil. -/
theorem c6_witness :
    killModel none false none = none :=
  (c6_kill_error_only_from_signal none none false).2 rfl rfl

/-- Integer rendering agrees with natural-number decimal rendering on
nonnegative integers. -/
lemma int_toString_nonneg (n : Int) (h : 0 ≤ n) :
    toString n = Nat.repr n.toNat := by
  cases n with
  | ofNat m => rfl
  | negSucc m => exact absurd h (by simp)

/-- C7: the computed exit status string is "0" when the wait reports no
error, the literal decimal rendering of the child exit code N for an
abnormal exit with 1 ≤ N ≤ 255, and "-1" both when the wait error is not an
exec.ExitError and when the ExitError carries no extractable WaitStatus. -/
theorem c7_exit_status :
    getExitStatus WaitResult.success = "0"
    ∧ (∀ n : Int, 1 ≤ n → n ≤ 255 →
        getExitStatus (WaitResult.exited (some n)) = Nat.repr n.toNat)
    ∧ getExitStatus (WaitResult.exited none) = "-1"
    ∧ getExitStatus WaitResult.otherErr = "-1" := by
  refine ⟨rfl, ?_, rfl, rfl⟩
  intro n h1 _
  have h0 : (0 : Int) ≤ n := le_trans (by norm_num) h1
  simpa [getExitStatus] using int_toString_nonneg n h0

/-- C7 witness: a child that calls exit(42) yields the exit status string
"42". -/
theorem c7_witness :
    getExitStatus (WaitResult.exited (some 42)) = "42" := by
  have h := c7_exit_status.2.1 42 (by norm_num) (by norm_num)
  simpa using h

/-! ## String helpers

Character-level embeddings of the handful of Go string operations the
sources use (strings.HasPrefix, strings.Split, strings.TrimSpace and the
whitespace class of the regexp package), kept executable down to the
character list so the kernel can evaluate them on concrete inputs. -/

/-- The whitespace class of Go regular expressions and of the space
trimming used here: space, tab, newline, form feed, carriage return. -/
def goWS (c : Char) : Bool :=
  c = ' ' || c = '\t' || c = '\n' || c = '\x0c' || c = '\r'

/-- One character list is an initial segment of another. -/
def listIsPre : List Char → List Char → Bool
  | [], _ => true
  | _ :: _, [] => false
  | a :: as, b :: bs => a == b && listIsPre as bs

/-- Embedding of strings.HasPrefix. -/
def strStartsWith (s pre : String) : Bool :=
  listIsPre pre.data s.data

/-- Splitting a character list at a delimiter character, accumulator form. -/
def splitCharAux (delim : Char) : List Char → List Char → List (List Char)
  | [], cur => [cur.reverse]
  | c :: rest, cur =>
      if c = delim then cur.reverse :: splitCharAux delim rest []
      else splitCharAux delim rest (c :: cur)

/-- Embedding of strings.Split with a one-character separator. -/
def splitStr (delim : Char) (s : String) : List String :=
  (splitCharAux delim s.data []).map String.mk

/-- Embedding of strings.TrimSpace at the character-list level. -/
def trimChars (l : List Char) : List Char :=
  ((l.dropWhile goWS).reverse.dropWhile goWS).reverse

/-- Embedding of strings.TrimSpace. -/
def trimStr (s : String) : String :=
  String.mk (trimChars s.data)

/-! ## Line scanner: the timestamp branch of the scanner loop

In Process.Start, when p.Timestamp is set, each reconstructed line is
preprocessed with p.LinePreProcessor, classified with p.LineCallbackFilter
and with headerExpansionRegex, and then appended to the output buffer either
unmodified or behind a "[timestamp] " prefix; a callback goroutine is
dispatched exactly when the filter accepted the preprocessed line. -/

/-- Embedding of headerExpansionRegex, the anchored Go pattern matching
three carets, one or more whitespace characters, three plus signs and
trailing whitespace: caret caret caret, backslash-s plus, plus plus plus,
backslash-s star, anchored at both ends. -/
def headerMatchChars : List Char → Bool
  | '^' :: '^' :: '^' :: rest =>
      let ws := rest.takeWhile goWS
      let r2 := rest.dropWhile goWS
      decide (0 < ws.length) &&
        (match r2 with
         | '+' :: '+' :: '+' :: tail => tail.all goWS
         | _ => false)
  | _ => false

/-- headerExpansionRegex.MatchString on a whole line. -/
def headerMatch (s : String) : Bool :=
  headerMatchChars s.data

/-- The effect of one scanner-loop iteration in timestamp mode: what is
appended to the output buffer and whether a line-callback goroutine is
dispatched. -/
structure LineStepResult where
  bufferAppendStr : String
  dispatched : Bool
deriving DecidableEq, Repr

/-- Embedding of the timestamp branch of the scanner loop: lineString is
the preprocessed line, lineHasCallback the filter verdict on it; the raw
line is written unmodified (plus newline) when the filter accepted it or
when the preprocessed line matches headerExpansionRegex, and otherwise it
is written behind the prefix built from the RFC3339 rendering of the
current UTC time (passed here as nowRFC3339); a callback task is
dispatched exactly when the filter accepted the line. -/
def processLineTimestamp (pre : String → String) (filter : String → Bool)
    (nowRFC3339 : String) (raw : String) : LineStepResult :=
  let lineString := pre raw
  let lineHasCallback := filter lineString
  let buf :=
    if lineHasCallback || headerMatch lineString then raw ++ "\n"
    else "[" ++ nowRFC3339 ++ "] " ++ raw ++ "\n"
  { bufferAppendStr := buf, dispatched := lineHasCallback }

/-- C5: with timestamping enabled, a line whose preprocessed form matches
the structural-marker pattern or passes the callback-filter predicate is
appended to the buffer unmodified (up to the terminating newline), and
every other line is appended behind the prefix built from the UTC
timestamp. -/
theorem c5_timestamp_branch :
    ∀ (pre : String → String) (filter : String → Bool)
      (nowRFC3339 raw : String),
      (filter (pre raw) = true ∨ headerMatch (pre raw) = true →
        (processLineTimestamp pre filter nowRFC3339 raw).bufferAppendStr
          = raw ++ "\n")
      ∧ (filter (pre raw) = false → headerMatch (pre raw) = false →
        (processLineTimestamp pre filter nowRFC3339 raw).bufferAppendStr
          = "[" ++ nowRFC3339 ++ "] " ++ raw ++ "\n") := by
  intro pre filter nowRFC3339 raw
  constructor
  · intro h
    cases h with
    | inl h => simp [processLineTimestamp, h]
    | inr h => simp [processLineTimestamp, h]
  · intro hf hm
    simp [processLineTimestamp, hf, hm]

/-- C5 witness: the structural marker line passes through without a
timestamp prefix, and an ordinary line is prefixed, at concrete inputs. -/
theorem c5_witness :
    (processLineTimestamp id (fun _ => false) "2014-01-01T00:00:00Z"
        "^^^ +++").bufferAppendStr = "^^^ +++" ++ "\n"
    ∧ (processLineTimestamp id (fun _ => false) "2014-01-01T00:00:00Z"
        "hello").bufferAppendStr
        = "[" ++ "2014-01-01T00:00:00Z" ++ "] " ++ "hello" ++ "\n" := by
  constructor
  · exact (c5_timestamp_branch id (fun _ => false) "2014-01-01T00:00:00Z"
      "^^^ +++").1 (Or.inr (by decide))
  · exact (c5_timestamp_branch id (fun _ => false) "2014-01-01T00:00:00Z"
      "hello").2 rfl (by decide)

/-! ## Artifact collector (artifact_uploader.go: Collect and build)

Paths are modelled structurally: a flag saying whether the path is
absolute plus the list of clean components.  filepath.Abs resolves a
relative path against the process working directory; filepath.Rel on two
absolute clean paths drops the common component run and emits one parent
reference per remaining base component.  The filesystem is an environment
supplying glob results, the directory predicate and per-file open, stat and
read behavior; the SHA-1 primitive of crypto/sha1 is a parameter. -/

/-- A clean filesystem path: absolute flag plus components. -/
structure GoPath where
  absFlag : Bool
  comps : List String
deriving DecidableEq, Repr

/-- The filesystem root, the rebasing target the code installs with
wd = "/" when a glob pattern is absolute. -/
def rootPath : GoPath := { absFlag := true, comps := [] }

/-- Embedding of filepath.Abs against the process working directory. -/
def goAbs (cwd : GoPath) (p : GoPath) : GoPath :=
  if p.absFlag then p else { absFlag := true, comps := cwd.comps ++ p.comps }

/-- Drop the longest common initial run of two component lists. -/
def dropCommon : List String → List String → List String × List String
  | a :: as, b :: bs =>
      if a = b then dropCommon as bs else (a :: as, b :: bs)
  | as, bs => (as, bs)

/-- Embedding of filepath.Rel on absolute clean paths: one parent
reference per base component left after removing the common run, followed
by the remaining target components. -/
def goRel (base target : GoPath) : GoPath :=
  let r := dropCommon base.comps target.comps
  { absFlag := false, comps := List.replicate r.fst.length ".." ++ r.snd }

/-- filepath.IsAbs on a pattern string. -/
def isAbsStr (s : String) : Bool :=
  strStartsWith s "/"

/-- The I/O behavior of one file as far as build observes it: the outcome
of os.Open, of file.Stat (the size it reports), and of the io.Copy into the
SHA-1 hash (the bytes actually delivered to the hash, and the error the
copy would report, which the source discards). -/
structure FileModel where
  openErr : Option String
  statErr : Option String
  size : Nat
  bytesRead : List Nat
  readErr : Option String
deriving DecidableEq, Repr

/-- One collected artifact record, as handed to the backend. -/
structure CollectedArt where
  path : GoPath
  absolutePath : GoPath
  globPath : String
  fileSize : Nat
  sha1sum : String
deriving DecidableEq, Repr

/-- Embedding of ArtifactUploader.build: os.Open and file.Stat failures
propagate; the checksum is hashFn applied to the bytes io.Copy delivered
(the copy error itself is discarded by the source), and the record carries
the paths and the stat size. -/
def build (hashFn : List Nat → String) (path absolutePath : GoPath)
    (globPath : String) (f : FileModel) : Except String CollectedArt :=
  match f.openErr with
  | some e => Except.error e
  | none =>
      match f.statErr with
      | some e => Except.error e
      | none =>
          Except.ok { path := path, absolutePath := absolutePath,
                      globPath := globPath, fileSize := f.size,
                      sha1sum := hashFn f.bytesRead }

/-- build performs exactly one os.Open call per invocation (the single
os.Open statement at the top of the function). -/
def buildOpenCalls (_ : FileModel) : Nat := 1

/-- Result of one zglob.Glob call: the os.ErrNotExist case the source
logs and skips, any other error, or the matched paths. -/
inductive GlobRes where
  | notExist
  | failed (e : String)
  | found (files : List GoPath)

/-- The environment Collect runs against: glob expansion, the directory
predicate used on absolute paths, and the per-file I/O model. -/
structure CollectEnv where
  glob : String → GlobRes
  isDirF : GoPath → Bool
  fileOf : GoPath → FileModel

/-- The inner per-file loop of Collect for one glob pattern, threading the
mutable wd variable: each non-directory match is resolved with filepath.Abs
against the process working directory cwd0, wd is reassigned to the root
when the pattern is absolute (and then stays reassigned), the reported path
is filepath.Rel of wd against the absolute path, and build failures abort
the whole collection. -/
def collectFiles (env : CollectEnv) (hashFn : List Nat → String)
    (cwd0 : GoPath) (globPath : String) :
    List GoPath → GoPath → List CollectedArt →
    Except String (List CollectedArt × GoPath)
  | [], wd, acc => Except.ok (acc, wd)
  | file :: rest, wd, acc =>
      let absolutePath := goAbs cwd0 file
      if env.isDirF absolutePath then
        collectFiles env hashFn cwd0 globPath rest wd acc
      else
        let wd1 := if isAbsStr globPath then rootPath else wd
        let path := goRel wd1 absolutePath
        match build hashFn path absolutePath globPath
            (env.fileOf absolutePath) with
        | Except.error e => Except.error e
        | Except.ok art =>
            collectFiles env hashFn cwd0 globPath rest wd1 (acc ++ [art])

/-- The outer per-pattern loop of Collect: each pattern is trimmed, empty
entries are skipped, glob not-found is logged and skipped, any other glob
error aborts, and the wd variable is threaded across patterns. -/
def collectLoop (env : CollectEnv) (hashFn : List Nat → String)
    (cwd0 : GoPath) :
    List String → GoPath → List CollectedArt →
    Except String (List CollectedArt × GoPath)
  | [], wd, acc => Except.ok (acc, wd)
  | g :: gs, wd, acc =>
      let g1 := trimStr g
      if g1 = "" then collectLoop env hashFn cwd0 gs wd acc
      else
        match env.glob g1 with
        | GlobRes.notExist => collectLoop env hashFn cwd0 gs wd acc
        | GlobRes.failed e => Except.error e
        | GlobRes.found files =>
            match collectFiles env hashFn cwd0 g1 files wd acc with
            | Except.error e => Except.error e
            | Except.ok (acc1, wd1) =>
                collectLoop env hashFn cwd0 gs wd1 acc1

/-- Embedding of ArtifactUploader.Collect: split the path specification on
the fixed delimiter and run the loop starting from the process working
directory. -/
def Collect (env : CollectEnv) (hashFn : List Nat → String)
    (cwd0 : GoPath) (paths : String) : Except String (List CollectedArt) :=
  match collectLoop env hashFn cwd0 (splitStr ';' paths) cwd0 [] with
  | Except.error e => Except.error e
  | Except.ok (arts, _) => Except.ok arts

/-! ### Reference collector for the amended C4

The reference version makes the persistent rebasing explicit through a
boolean seenAbs flag: a file is rebased against the root exactly when its
own pattern is absolute or when some earlier-processed non-directory match
came from an absolute pattern; otherwise it is rebased against the working
directory. -/

/-- The rebasing target that corresponds to a seenAbs flag value: the
filesystem root once an absolute pattern has matched, the working directory
before that. -/
def condWd (seenAbs : Bool) (cwd0 : GoPath) : GoPath :=
  if seenAbs then rootPath else cwd0

/-- Reference per-file loop, with the explicit seenAbs flag in place of the
threaded wd variable: the base of each reported path is the root exactly
when the flag is set or the pattern itself is absolute. -/
def collectFilesRef (env : CollectEnv) (hashFn : List Nat → String)
    (cwd0 : GoPath) (globPath : String) :
    List GoPath → Bool → List CollectedArt →
    Except String (List CollectedArt × Bool)
  | [], seenAbs, acc => Except.ok (acc, seenAbs)
  | file :: rest, seenAbs, acc =>
      let absolutePath := goAbs cwd0 file
      if env.isDirF absolutePath then
        collectFilesRef env hashFn cwd0 globPath rest seenAbs acc
      else
        let seen1 := seenAbs || isAbsStr globPath
        match build hashFn (goRel (condWd seen1 cwd0) absolutePath)
            absolutePath globPath (env.fileOf absolutePath) with
        | Except.error e => Except.error e
        | Except.ok art =>
            collectFilesRef env hashFn cwd0 globPath rest seen1 (acc ++ [art])

/-- Reference per-pattern loop. -/
def collectLoopRef (env : CollectEnv) (hashFn : List Nat → String)
    (cwd0 : GoPath) :
    List String → Bool → List CollectedArt →
    Except String (List CollectedArt × Bool)
  | [], seenAbs, acc => Except.ok (acc, seenAbs)
  | g :: gs, seenAbs, acc =>
      let g1 := trimStr g
      if g1 = "" then collectLoopRef env hashFn cwd0 gs seenAbs acc
      else
        match env.glob g1 with
        | GlobRes.notExist => collectLoopRef env hashFn cwd0 gs seenAbs acc
        | GlobRes.failed e => Except.error e
        | GlobRes.found files =>
            match collectFilesRef env hashFn cwd0 g1 files seenAbs acc with
            | Except.error e => Except.error e
            | Except.ok (acc1, seen1) =>
                collectLoopRef env hashFn cwd0 gs seen1 acc1

/-- Reference collector, per the amended claim wording. -/
def CollectRef (env : CollectEnv) (hashFn : List Nat → String)
    (cwd0 : GoPath) (paths : String) : Except String (List CollectedArt) :=
  match collectLoopRef env hashFn cwd0 (splitStr ';' paths) false [] with
  | Except.error e => Except.error e
  | Except.ok (arts, _) => Except.ok arts

/-- Conditional rebasing targets collapse: installing the root when the
pattern is absolute on top of an already-conditional target is the
conditional target of the disjunction. -/
lemma condWd_absorb (a s : Bool) (c : GoPath) :
    (if a then rootPath else condWd s c) = condWd (s || a) c := by
  cases a <;> cases s <;> rfl

/-- The per-file loop of the source agrees with the reference per-file
loop: threading wd is the same as threading the seenAbs flag. -/
lemma collectFiles_eq_ref (env : CollectEnv) (hashFn : List Nat → String)
    (cwd0 : GoPath) (globPath : String) :
    ∀ (files : List GoPath) (s : Bool) (acc : List CollectedArt),
      collectFiles env hashFn cwd0 globPath files (condWd s cwd0) acc
        = Except.map (fun p => (p.1, condWd p.2 cwd0))
            (collectFilesRef env hashFn cwd0 globPath files s acc) := by
  intro files
  induction files with
  | nil => intro s acc; rfl
  | cons file rest ih =>
      intro s acc
      simp only [collectFiles, collectFilesRef]
      cases hd : env.isDirF (goAbs cwd0 file) with
      | true => simpa [hd] using ih s acc
      | false =>
          simp only [hd, Bool.false_eq_true, if_false]
          rw [condWd_absorb (isAbsStr globPath) s cwd0]
          cases hb : build hashFn
              (goRel (condWd (s || isAbsStr globPath) cwd0)
                (goAbs cwd0 file))
              (goAbs cwd0 file) globPath (env.fileOf (goAbs cwd0 file)) with
          | error e => rfl
          | ok art => exact ih (s || isAbsStr globPath) (acc ++ [art])

/-- Auxiliary step for the per-pattern loop: once a glob produced a file
list, the source continuation over collectFiles agrees with the reference
continuation over collectFilesRef. -/
lemma collectLoop_found_aux (env : CollectEnv) (hashFn : List Nat → String)
    (cwd0 : GoPath) (gpat : String) (files : List GoPath) (s : Bool)
    (acc : List CollectedArt) (rest : List String)
    (ih2 : ∀ (s2 : Bool) (acc2 : List CollectedArt),
      collectLoop env hashFn cwd0 rest (condWd s2 cwd0) acc2
        = Except.map (fun p => (p.1, condWd p.2 cwd0))
            (collectLoopRef env hashFn cwd0 rest s2 acc2)) :
    (match collectFiles env hashFn cwd0 gpat files (condWd s cwd0) acc with
     | Except.error e => Except.error e
     | Except.ok (acc1, wd1) => collectLoop env hashFn cwd0 rest wd1 acc1)
      = Except.map (fun p => (p.1, condWd p.2 cwd0))
          (match collectFilesRef env hashFn cwd0 gpat files s acc with
           | Except.error e => Except.error e
           | Except.ok (acc1, s1) =>
               collectLoopRef env hashFn cwd0 rest s1 acc1) := by
  rw [collectFiles_eq_ref env hashFn cwd0 gpat files s acc]
  cases collectFilesRef env hashFn cwd0 gpat files s acc with
  | error e => rfl
  | ok p => exact ih2 p.2 p.1

/-- The per-pattern loop of the source agrees with the reference loop. -/
lemma collectLoop_eq_ref (env : CollectEnv) (hashFn : List Nat → String)
    (cwd0 : GoPath) :
    ∀ (gs : List String) (s : Bool) (acc : List CollectedArt),
      collectLoop env hashFn cwd0 gs (condWd s cwd0) acc
        = Except.map (fun p => (p.1, condWd p.2 cwd0))
            (collectLoopRef env hashFn cwd0 gs s acc) := by
  intro gs
  induction gs with
  | nil => intro s acc; rfl
  | cons g rest ih =>
      intro s acc
      simp only [collectLoop, collectLoopRef]
      by_cases hg : trimStr g = ""
      · rw [if_pos hg, if_pos hg]
        exact ih s acc
      · rw [if_neg hg, if_neg hg]
        cases hglob : env.glob (trimStr g) with
        | notExist => exact ih s acc
        | failed e => rfl
        | found files =>
            exact collectLoop_found_aux env hashFn cwd0 (trimStr g) files
              s acc rest ih

/-! ## Claims C3, C4 -/

/-- A demonstration hash standing in for the SHA-1 primitive at concrete
inputs: the decimal length of the byte list. -/
def lenHash (l : List Nat) : String := Nat.repr l.length

/-- Whether an Except value is a success. -/
def isOkE {ε α : Type} : Except ε α → Bool
  | Except.ok _ => true
  | Except.error _ => false

/-- A concrete file whose open and stat succeed but whose read for the
checksum fails partway. -/
def fileReadFail : FileModel :=
  { openErr := none, statErr := none, size := 5,
    bytesRead := [104, 105], readErr := some "read failure" }

/-- C3 (corrected): the claim says a failure to read the file is a hard
error aborting collection; but build discards the io.Copy error, so a file
whose read fails still yields a successful artifact record, with the
checksum computed over only the bytes read before the failure. -/
theorem c3_counterexample :
    fileReadFail.readErr = some "read failure"
    ∧ isOkE (build lenHash { absFlag := false, comps := ["a.txt"] }
        { absFlag := true, comps := ["w", "a.txt"] } "a.txt"
        fileReadFail) = true
    ∧ build lenHash { absFlag := false, comps := ["a.txt"] }
        { absFlag := true, comps := ["w", "a.txt"] } "a.txt" fileReadFail
      = Except.ok { path := { absFlag := false, comps := ["a.txt"] },
                    absolutePath := { absFlag := true,
                                      comps := ["w", "a.txt"] },
                    globPath := "a.txt", fileSize := 5, sha1sum := "2" } := by
  refine ⟨rfl, rfl, ?_⟩
  rfl

/-- C3 (amended): every matched file is opened exactly once; a failure of
os.Open or of file.Stat is a hard error that aborts the collection and
propagates (shown both for build itself and for the per-file collection
loop); a failure during the checksum read, however, is ignored and the
artifact is built with the checksum of the bytes read before the failure. -/
theorem c3_amended :
    ∀ (hashFn : List Nat → String) (p ap : GoPath) (g : String)
      (f : FileModel),
      (∀ e, f.openErr = some e →
        build hashFn p ap g f = Except.error e ∧ buildOpenCalls f = 1)
      ∧ (∀ e, f.openErr = none → f.statErr = some e →
          build hashFn p ap g f = Except.error e)
      ∧ (f.openErr = none → f.statErr = none →
          build hashFn p ap g f
            = Except.ok { path := p, absolutePath := ap, globPath := g,
                          fileSize := f.size,
                          sha1sum := hashFn f.bytesRead }
          ∧ buildOpenCalls f = 1)
      ∧ (∀ (env : CollectEnv) (cwd0 : GoPath) (file : GoPath)
            (rest : List GoPath) (wd : GoPath) (acc : List CollectedArt) (e : String),
          env.isDirF (goAbs cwd0 file) = false →
          build hashFn
              (goRel (if isAbsStr g then rootPath else wd) (goAbs cwd0 file))
              (goAbs cwd0 file) g (env.fileOf (goAbs cwd0 file))
            = Except.error e →
          collectFiles env hashFn cwd0 g (file :: rest) wd acc
            = Except.error e) := by
  intro hashFn p ap g f
  refine ⟨?_, ?_, ?_, ?_⟩
  · intro e he
    exact ⟨by simp [build, he], rfl⟩
  · intro e ho hs
    simp [build, ho, hs]
  · intro ho hs
    exact ⟨by simp [build, ho, hs], rfl⟩
  · intro env cwd0 file rest wd acc e hdir hbuild
    simp only [collectFiles, hdir, Bool.false_eq_true, if_false]
    rw [hbuild]

/-- C3 witness: at concrete inputs, an open failure propagates as the
collection error, and a read failure is ignored while open and stat
succeed. -/
theorem c3_amended_witness :
    build lenHash rootPath rootPath "g"
        { openErr := some "boom", statErr := none, size := 0,
          bytesRead := [], readErr := none }
      = Except.error "boom"
    ∧ build lenHash rootPath rootPath "g" fileReadFail
      = Except.ok { path := rootPath, absolutePath := rootPath,
                    globPath := "g", fileSize := 5, sha1sum := "2" } := by
  constructor
  · exact ((c3_amended lenHash rootPath rootPath "g"
      { openErr := some "boom", statErr := none, size := 0,
        bytesRead := [], readErr := none }).1 "boom" rfl).1
  · have h := ((c3_amended lenHash rootPath rootPath "g"
      fileReadFail).2.2.1 rfl rfl).1
    simpa using h

/-- The working directory of the C4 scenario. -/
def demoCwd : GoPath := { absFlag := true, comps := ["w"] }

/-- A concrete collection environment: the absolute pattern matches one
file under the root, the relative pattern matches one file under the
working directory, nothing is a directory, and every file reads cleanly. -/
def demoEnv : CollectEnv :=
  { glob := fun s =>
      if s = "/a/*" then GlobRes.found [{ absFlag := true, comps := ["a", "x"] }]
      else if s = "b/*" then
        GlobRes.found [{ absFlag := false, comps := ["b", "y"] }]
      else GlobRes.notExist,
    isDirF := fun _ => false,
    fileOf := fun _ =>
      { openErr := none, statErr := none, size := 1,
        bytesRead := [0], readErr := none } }

/-- C4 (corrected): the claim says each pattern of a multi-pattern pathSpec
is rebased independently of the other patterns; but after the absolute
pattern of the pathSpec matches a file, the wd variable stays reassigned to
the root, so the file of the following relative pattern is reported rebased
against the root instead of against the working directory. -/
theorem c4_counterexample :
    (match Collect demoEnv lenHash demoCwd "/a/*;b/*" with
     | Except.ok arts => arts.map (fun a => a.path)
     | Except.error _ => [])
      = [{ absFlag := false, comps := ["a", "x"] },
         { absFlag := false, comps := ["w", "b", "y"] }]
    ∧ ({ absFlag := false, comps := ["w", "b", "y"] } : GoPath)
        ≠ goRel demoCwd (goAbs demoCwd { absFlag := false, comps := ["b", "y"] }) := by
  constructor
  · decide
  · decide

/-- C4 (amended): for every matched file the relative base is the working
directory, except that it is the filesystem root when the file's own glob
pattern is absolute or when any earlier-processed non-directory match in
the same pathSpec came from an absolute pattern: Collect coincides with the
reference collector that makes this persistent rebasing explicit. -/
theorem c4_collect_eq_ref :
    ∀ (env : CollectEnv) (hashFn : List Nat → String) (cwd0 : GoPath)
      (paths : String),
      Collect env hashFn cwd0 paths = CollectRef env hashFn cwd0 paths := by
  intro env hashFn cwd0 paths
  unfold Collect CollectRef
  have h := collectLoop_eq_ref env hashFn cwd0 (splitStr ';' paths) false []
  have hc : condWd false cwd0 = cwd0 := rfl
  rw [hc] at h
  rw [h]
  cases collectLoopRef env hashFn cwd0 (splitStr ';' paths) false [] with
  | error e => rfl
  | ok p => rfl

/-! ## Upload coordinator: shared error variable during concurrent uploads

In ArtifactUploader.upload, every spawned upload task and the state
reporter assign the one err variable captured from the enclosing scope
(err = retry.Do(...)), and each task later reads that same shared variable
to decide whether its artifact state is error or finished.  We model each
upload task as two atomic steps on shared state: the write of its retry
result into the shared err variable, and the read of the shared err
variable that picks the state string, records the state in the artifact
state map, and appends to the errors list. -/

/-- The shared mutable state of upload: the boolean content of the shared
err variable (true when it currently holds a non-nil error), the per-task
terminal state strings (none while a task has not yet stored a state), and
the length of the errors slice. -/
structure USt where
  errFlag : Bool
  states : List (Option String)
  errCount : Nat
deriving DecidableEq, Repr

/-- One atomic step of upload task i: the write of its retry outcome into
the shared err variable, or the read of the shared err variable that
decides and stores the state for artifact i. -/
inductive UAct where
  | wr (i : Nat)
  | rd (i : Nat)
deriving DecidableEq, BEq, Repr

/-- The effect of one step: outcomes lists, per task, whether its own
retried upload was exhausted with an error.  A write stores the task's
outcome into the shared err variable; a read stores state error when the
shared variable currently holds an error and finished otherwise, and
appends to the errors slice in the error case. -/
def stepU (outcomes : List Bool) (s : USt) : UAct → USt
  | UAct.wr i => { s with errFlag := outcomes.getD i false }
  | UAct.rd _i =>
      { s with
        states := s.states.set _i
          (some (if s.errFlag then "error" else "finished")),
        errCount := s.errCount + (if s.errFlag then 1 else 0) }

/-- Run a schedule: the shared err variable starts nil (the preceding
batchCreator.Create call succeeded) and no state has been stored yet. -/
def runU (outcomes : List Bool) (sched : List UAct) : USt :=
  sched.foldl (stepU outcomes)
    { errFlag := false, states := List.replicate outcomes.length none,
      errCount := 0 }

/-- A schedule is a valid interleaving of n two-step tasks: each task
writes once and reads once, its write precedes its read, and no other
steps occur. -/
def validSched (n : Nat) (sched : List UAct) : Bool :=
  (List.range n).all (fun i =>
    sched.count (UAct.wr i) == 1 && sched.count (UAct.rd i) == 1 &&
    decide (sched.indexOf (UAct.wr i) < sched.indexOf (UAct.rd i)))
  && sched.all (fun a =>
    match a with
    | UAct.wr i => decide (i < n)
    | UAct.rd i => decide (i < n))

/-- The schedule in which every task runs its write and read back to back,
with no interleaving: the intended execution. -/
def seqSched (n : Nat) : List UAct :=
  ((List.range n).map (fun i => [UAct.wr i, UAct.rd i])).flatten

/-- An adversarial but valid interleaving of three tasks: task 0 writes
its nil result, task 1 writes its failure into the shared err variable,
and only then do tasks 0 and 1 read it; task 2 runs uninterleaved. -/
def badSched : List UAct :=
  [UAct.wr 0, UAct.wr 1, UAct.rd 0, UAct.rd 1, UAct.wr 2, UAct.rd 2]

/-- C2 (code bug): with three artifacts of which only artifact 1 fails all
its retries, the claim (and the intent of the source comments) is state
finished for artifacts 0 and 2 and error for artifact 1 — which the
sequential schedule indeed produces, together with exactly one recorded
error and hence the final failure signal.  But because every task writes
and reads the one shared err variable, the valid interleaving badSched
marks the succeeding artifact 0 as error as well, yielding two error
states and two recorded errors. -/
theorem c2_code_bug_eval :
    validSched 3 badSched = true
    ∧ (runU [false, true, false] (seqSched 3)).states
        = [some "finished", some "error", some "finished"]
    ∧ (runU [false, true, false] (seqSched 3)).errCount = 1
    ∧ (runU [false, true, false] badSched).states
        = [some "error", some "error", some "finished"]
    ∧ (runU [false, true, false] badSched).errCount = 2 := by
  refine ⟨?_, ?_, ?_, ?_, ?_⟩ <;> decide

/-! ## Upload coordinator: uploader selection and call sequence -/

/-- The uploader strategies of upload: the S3 uploader, the GS uploader,
and the default backend-hosted form uploader. -/
inductive UploaderKind where
  | s3
  | gs
  | form
deriving DecidableEq, Repr

/-- The configuration error message for an unrecognized non-empty
destination (quotation marks of the source message elided). -/
def invalidDestMsg (dest : String) : String :=
  "Invalid upload destination: " ++ dest ++
    ". Only s3:// and gs:// upload destinations are allowed. " ++
    "Did you forget to surround your artifact upload pattern in double quotes?"

/-- Embedding of the uploader-selection head of upload: a non-empty
destination starting with s3:// selects the S3 uploader, one starting with
gs:// selects the GS uploader, any other non-empty destination is a
configuration error, and an empty destination selects the form uploader. -/
def selectUploader (dest : String) : Except String UploaderKind :=
  if dest ≠ "" then
    if strStartsWith dest "s3://" then Except.ok UploaderKind.s3
    else if strStartsWith dest "gs://" then Except.ok UploaderKind.gs
    else Except.error (invalidDestMsg dest)
  else Except.ok UploaderKind.form

/-- The externally visible phases of upload, in source order: uploader
selected, uploader.Setup called, artifact URLs assigned, batch
registration performed, per-artifact uploads started. -/
inductive UpEffect where
  | selected
  | setupU
  | setUrls
  | registerU
  | uploadFiles
deriving DecidableEq, Repr

/-- Embedding of the phase sequence of upload: selection failure returns
the configuration error before anything else runs; then Setup, URL
assignment and batch registration run in order with their failures
propagating; only then are the per-artifact uploads spawned. -/
def uploadRun (dest : String) (setupErr registerErr : Option String) :
    List UpEffect × Option String :=
  match selectUploader dest with
  | Except.error e => ([], some e)
  | Except.ok _ =>
      match setupErr with
      | some e => ([UpEffect.selected, UpEffect.setupU], some e)
      | none =>
          match registerErr with
          | some e =>
              ([UpEffect.selected, UpEffect.setupU, UpEffect.setUrls,
                UpEffect.registerU], some e)
          | none =>
              ([UpEffect.selected, UpEffect.setupU, UpEffect.setUrls,
                UpEffect.registerU, UpEffect.uploadFiles], none)

/-- A character list with a prefixed head forces the string non-empty. -/
lemma listIsPre_head (c : Char) (cs l : List Char)
    (h : listIsPre (c :: cs) l = true) : ∃ l2, l = c :: l2 := by
  cases l with
  | nil => simp [listIsPre] at h
  | cons b bs =>
      simp only [listIsPre, Bool.and_eq_true, beq_iff_eq] at h
      exact ⟨bs, by rw [h.1]⟩

/-- A destination with a non-empty literal scheme is non-empty. -/
lemma startsWith_ne_empty (dest : String) (c : Char) (cs : List Char)
    (h : listIsPre (c :: cs) dest.data = true) : dest ≠ "" := by
  intro he
  subst he
  simp [listIsPre] at h

/-- A destination starting with gs:// does not start with s3://. -/
lemma gs_not_s3 (dest : String) (h : strStartsWith dest "gs://" = true) :
    strStartsWith dest "s3://" = false := by
  obtain ⟨l2, hl⟩ := listIsPre_head 'g' ['s', ':', '/', '/'] dest.data h
  show listIsPre "s3://".data dest.data = false
  rw [hl]
  simp [listIsPre]

/-- C8: upload selects its uploader solely from the destination string: an
s3:// destination selects the S3 uploader, a gs:// destination the GS
uploader, any other non-empty destination yields the configuration error
with no phase of upload performed (no setup, no URL assignment, no
registration, no upload), and the empty destination selects the form
uploader. -/
theorem c8_uploader_selection :
    ∀ (dest : String) (setupErr registerErr : Option String),
      (strStartsWith dest "s3://" = true →
        selectUploader dest = Except.ok UploaderKind.s3)
      ∧ (strStartsWith dest "gs://" = true →
        selectUploader dest = Except.ok UploaderKind.gs)
      ∧ (dest ≠ "" → strStartsWith dest "s3://" = false →
          strStartsWith dest "gs://" = false →
          selectUploader dest = Except.error (invalidDestMsg dest)
          ∧ uploadRun dest setupErr registerErr
              = ([], some (invalidDestMsg dest)))
      ∧ (dest = "" → selectUploader dest = Except.ok UploaderKind.form) := by
  intro dest setupErr registerErr
  refine ⟨?_, ?_, ?_, ?_⟩
  · intro h
    have hne : dest ≠ "" := startsWith_ne_empty dest 's' ['3', ':', '/', '/'] h
    rw [selectUploader, if_pos hne, if_pos h]
  · intro h
    have hne : dest ≠ "" := startsWith_ne_empty dest 'g' ['s', ':', '/', '/'] h
    have hs3 : strStartsWith dest "s3://" = false := gs_not_s3 dest h
    rw [selectUploader, if_pos hne, if_neg (by simp [hs3]), if_pos h]
  · intro hne hs3 hgs
    have hsel : selectUploader dest = Except.error (invalidDestMsg dest) := by
      rw [selectUploader, if_pos hne, if_neg (by simp [hs3]),
        if_neg (by simp [hgs])]
    exact ⟨hsel, by rw [uploadRun.eq_def, hsel]⟩
  · intro he
    rw [selectUploader, if_neg (by simp [he])]

/-- C8 witness: the three destination shapes at concrete inputs. -/
theorem c8_witness :
    selectUploader "s3://bucket/path" = Except.ok UploaderKind.s3
    ∧ uploadRun "ftp://host" none none
        = ([], some (invalidDestMsg "ftp://host"))
    ∧ selectUploader "" = Except.ok UploaderKind.form := by
  refine ⟨?_, ?_, ?_⟩
  · exact (c8_uploader_selection "s3://bucket/path" none none).1 (by decide)
  · exact ((c8_uploader_selection "ftp://host" none none).2.2.1
      (by decide) (by decide) (by decide)).2
  · exact (c8_uploader_selection "" none none).2.2.2 rfl

/-! ## ArtifactUploader.Upload: the empty-collection fast path -/

/-- Embedding of ArtifactUploader.Upload: a collection error propagates;
when the collection yields no artifacts, Upload only logs and returns nil
without running any phase of upload; otherwise it runs upload and returns
its result. -/
def UploadTop (collectRes : Except String (List CollectedArt))
    (dest : String) (setupErr registerErr : Option String) :
    Option String × List UpEffect :=
  match collectRes with
  | Except.error e => (some e, [])
  | Except.ok arts =>
      if arts.length = 0 then (none, [])
      else ((uploadRun dest setupErr registerErr).2,
            (uploadRun dest setupErr registerErr).1)

/-- When every glob reports not-exist, the collection loop leaves the
accumulator and working directory untouched. -/
lemma collectLoop_all_notExist (env : CollectEnv)
    (hashFn : List Nat → String) (cwd0 : GoPath)
    (hno : ∀ g, env.glob g = GlobRes.notExist) :
    ∀ (gs : List String) (wd : GoPath) (acc : List CollectedArt),
      collectLoop env hashFn cwd0 gs wd acc = Except.ok (acc, wd) := by
  intro gs
  induction gs with
  | nil => intro wd acc; rfl
  | cons g rest ih =>
      intro wd acc
      simp only [collectLoop]
      by_cases hg : trimStr g = ""
      · rw [if_pos hg]
        exact ih wd acc
      · rw [if_neg hg, hno (trimStr g)]
        exact ih wd acc

/-- C10: when the collection result is an empty artifact list, Upload
returns nil with no phase of upload performed — no uploader selection, no
setup, no registration, no per-artifact upload, no status update; and a
collection in which no glob pattern matches anything indeed yields the
empty artifact list successfully. -/
theorem c10_empty_noop :
    (∀ (dest : String) (setupErr registerErr : Option String),
      UploadTop (Except.ok []) dest setupErr registerErr = (none, []))
    ∧ (∀ (env : CollectEnv) (hashFn : List Nat → String) (cwd0 : GoPath)
        (paths : String),
        (∀ g, env.glob g = GlobRes.notExist) →
        Collect env hashFn cwd0 paths = Except.ok []) := by
  constructor
  · intro dest setupErr registerErr
    rfl
  · intro env hashFn cwd0 paths hno
    unfold Collect
    rw [collectLoop_all_notExist env hashFn cwd0 hno
      (splitStr ';' paths) cwd0 []]

/-- An environment in which no glob matches anything. -/
def noMatchEnv : CollectEnv :=
  { glob := fun _ => GlobRes.notExist,
    isDirF := fun _ => false,
    fileOf := fun _ =>
      { openErr := none, statErr := none, size := 0,
        bytesRead := [], readErr := none } }

/-- C10 witness: a concrete no-match collection yields the empty list and
the empty-list fast path of Upload performs nothing. -/
theorem c10_witness :
    Collect noMatchEnv lenHash demoCwd "a/*;b.log" = Except.ok []
    ∧ UploadTop (Except.ok []) "" none none = (none, []) :=
  ⟨c10_empty_noop.2 noMatchEnv lenHash demoCwd "a/*;b.log" (fun _ => rfl),
   c10_empty_noop.1 "" none none⟩

/-! ## Retry policy and the break-on-unrecoverable operations

The retry package itself is not among the sources; only its callers are.
Its loop is therefore modelled from the specification of RetryPolicy, and
the two operations passed to it — the pipeline-upload closure and the
annotate closure — are embedded from the clicommand sources. -/

/-- Modelled from the spec: the body of the retry loop of the missing
retry package.  An operation result pairs the error it returned with
whether it called the break signal of its attempt state.  The loop invokes
the operation with the 1-based attempt index, returns nil on the first
success, returns the last error once broken or once attempts are
exhausted, and otherwise sleeps and retries; the pair also reports the
index of the last attempt made. -/
def retryAux {E : Type} (op : Nat → Option E × Bool) :
    Nat → Nat → Option E × Nat
  | _, 0 => (none, 0)
  | attempt, r + 1 =>
      match op attempt with
      | (none, _) => (none, attempt)
      | (some e, brk) =>
          if brk || r == 0 then (some e, attempt)
          else retryAux op (attempt + 1) r

/-- Modelled from the spec: retry.Do of the missing retry package invokes
the operation up to maximum times starting at attempt 1 (the waiting
between attempts carries no information for these claims and is elided). -/
def retryDo {E : Type} (op : Nat → Option E × Bool) (maximum : Nat) :
    Option E × Nat :=
  retryAux op 1 maximum

/-- The response shapes the pipeline-upload closure distinguishes: a
successful upload, an api.ErrorResponse with its HTTP status code, and any
other error. -/
inductive PipeResp where
  | ok
  | errResp (status : Nat)
  | otherFail (msg : String)
deriving DecidableEq, Repr

/-- The errors the pipeline-upload closure returns. -/
inductive PipeErr where
  | respErr (status : Nat)
  | otherErr (msg : String)
deriving DecidableEq, Repr

/-- Embedding of the retried closure of PipelineUploadCommand: the upload
error is returned as is, and the break signal is raised exactly when the
error is an api.ErrorResponse whose status code is 422. -/
def pipelineUploadOp (backend : Nat → PipeResp) (attempt : Nat) :
    Option PipeErr × Bool :=
  match backend attempt with
  | PipeResp.ok => (none, false)
  | PipeResp.errResp st => (some (PipeErr.respErr st), st == 422)
  | PipeResp.otherFail m => (some (PipeErr.otherErr m), false)

/-- The errors the annotate closure returns. -/
inductive AnnErr where
  | apiErr (msg : String)
deriving DecidableEq, Repr

/-- Embedding of the retried closure of AnnotateCommand: the backend call
yields a response status (when a response exists) and an error; the break
signal is raised exactly when a response exists with status 401, 404 or
400, and the error is returned as is. -/
def annotateCreateOp (backend : Nat → Option Nat × Option AnnErr)
    (attempt : Nat) : Option AnnErr × Bool :=
  match (backend attempt).1 with
  | some st =>
      if st == 401 || st == 404 || st == 400 then ((backend attempt).2, true)
      else ((backend attempt).2, false)
  | none => ((backend attempt).2, false)

/-- If the operation raises the break signal at a reachable attempt, the
retry loop stops at exactly that attempt with that error. -/
lemma retryAux_break {E : Type} (op : Nat → Option E × Bool) :
    ∀ (fuel start k : Nat) (e : E),
      start ≤ k → k < start + fuel →
      (∀ j, start ≤ j → j < k → ∃ e2, op j = (some e2, false)) →
      op k = (some e, true) →
      retryAux op start fuel = (some e, k) := by
  intro fuel
  induction fuel with
  | zero =>
      intro start k e h1 h2 _ _
      omega
  | succ r ih =>
      intro start k e h1 h2 hpre hk
      by_cases hsk : start = k
      · subst hsk
        simp [retryAux, hk]
      · have hlt : start < k := lt_of_le_of_ne h1 hsk
        obtain ⟨e2, h2op⟩ := hpre start le_rfl hlt
        have hr0 : (r == 0) = false := by
          cases r with
          | zero => omega
          | succ r2 => rfl
        simp only [retryAux, h2op, hr0, Bool.or_false, Bool.false_eq_true,
          if_false]
        exact ih (start + 1) k e (by omega) (by omega)
          (fun j hj hjk => hpre j (by omega) hjk) hk

/-- C9: when the backend rejects a retried request as unrecoverable, the
operation raises the break signal of its attempt state and the retry loop
makes no further attempt, however many remain.  For the pipeline upload
this is an api.ErrorResponse with status 422; for the annotate call it is
any response with status 401, 404 or 400.  In both cases, if all earlier
attempts were retryable failures and the backend answers unrecoverably at
attempt k within the maximum, the loop stops at exactly attempt k with
that error. -/
theorem c9_retry_break :
    (∀ (backend : Nat → PipeResp) (maximum k : Nat),
      1 ≤ k → k ≤ maximum →
      (∀ j, 1 ≤ j → j < k →
        (∃ st, backend j = PipeResp.errResp st ∧ (st == 422) = false)
        ∨ (∃ m, backend j = PipeResp.otherFail m)) →
      backend k = PipeResp.errResp 422 →
      retryDo (pipelineUploadOp backend) maximum
        = (some (PipeErr.respErr 422), k))
    ∧ (∀ (backend : Nat → Option Nat × Option AnnErr) (maximum k st : Nat)
        (e : AnnErr),
      1 ≤ k → k ≤ maximum →
      (∀ j, 1 ≤ j → j < k →
        (backend j).1 = none ∧ ∃ e2, (backend j).2 = some e2) →
      (st == 401 || st == 404 || st == 400) = true →
      backend k = (some st, some e) →
      retryDo (annotateCreateOp backend) maximum = (some e, k)) := by
  constructor
  · intro backend maximum k h1 h2 hpre hk
    unfold retryDo
    refine retryAux_break (pipelineUploadOp backend) maximum 1 k
      (PipeErr.respErr 422) h1 (by omega) ?_ ?_
    · intro j hj hjk
      rcases hpre j hj hjk with ⟨st, hbe, hst⟩ | ⟨m, hbe⟩
      · exact ⟨PipeErr.respErr st, by simp [pipelineUploadOp, hbe, hst]⟩
      · exact ⟨PipeErr.otherErr m, by simp [pipelineUploadOp, hbe]⟩
    · simp [pipelineUploadOp, hk]
  · intro backend maximum k st e h1 h2 hpre hin hk
    unfold retryDo
    refine retryAux_break (annotateCreateOp backend) maximum 1 k e h1
      (by omega) ?_ ?_
    · intro j hj hjk
      obtain ⟨hrespNone, e2, he2⟩ := hpre j hj hjk
      exact ⟨e2, by simp [annotateCreateOp, hrespNone, he2]⟩
    · simp [annotateCreateOp, hk, hin]

/-- C9 witness: a backend that always answers 422 stops the pipeline
upload after exactly one attempt out of five, and a backend that answers
404 stops the annotate call after exactly one attempt out of five. -/
theorem c9_witness :
    retryDo (pipelineUploadOp (fun _ => PipeResp.errResp 422)) 5
      = (some (PipeErr.respErr 422), 1)
    ∧ retryDo (annotateCreateOp
        (fun _ => (some 404, some (AnnErr.apiErr "forbidden")))) 5
      = (some (AnnErr.apiErr "forbidden"), 1) := by
  constructor
  · exact c9_retry_break.1 (fun _ => PipeResp.errResp 422) 5 1 le_rfl
      (by omega) (fun j hj hjk => absurd hjk (by omega)) rfl
  · exact c9_retry_break.2 (fun _ => (some 404, some (AnnErr.apiErr
      "forbidden"))) 5 1 404 (AnnErr.apiErr "forbidden") le_rfl (by omega)
      (fun j hj hjk => absurd hjk (by omega)) (by decide) rfl

end Buildkite
